import Mathlib

/-!
Verification development for the agenticwork MCP proxy
(`src/services/agenticwork-mcp-proxy/src/main.py` and `mcp_manager.py`).

The Python source is shallowly embedded: pure decision logic becomes Lean
functions, the stateful registry becomes explicit state passing over an
association list, external effects (process spawn, platform API calls, JWT
validation, the child's stdout stream) become explicit parameters of the
embedded functions.
-/

namespace McpProxy

/-- JSON-RPC ids are strings or integers in the source
(`mcp_manager.py`, `send_request`). -/
inductive JsonId where
  | str (s : String)
  | num (n : Int)
  deriving DecidableEq, Repr

/-- Python `str(x)` applied to an id value, used by `send_request` to
normalize ids before comparison (`str(request_id)` / `str(response_id)`). -/
def JsonId.pyStr : JsonId → String
  | .str s => s
  | .num n => toString n

/-- `str(id) if id is not None else None` from `send_request`. -/
def normalizeId : Option JsonId → Option String
  | none => none
  | some i => some i.pyStr

/-- One parsed JSON-RPC response object read from the child's stdout.
Only the fields the proxy inspects are modelled: the `id` (absent means
`response.get("id")` returns `None`) and an abstract payload. -/
structure RpcResponse where
  id : Option JsonId
  payload : String
  deriving DecidableEq, Repr

/-- One line read from the child's stdout by `send_request`:
either a blank/whitespace-only line (`not response_str.strip()`),
or a line that parses as a JSON-RPC response object. -/
inductive Line where
  | blank
  | json (r : RpcResponse)
  deriving DecidableEq, Repr

/-- `max_attempts = 10` in `MCPServer.send_request`. -/
def max_attempts : Nat := 10

/-- Error message raised on a blank line (`RuntimeError("Empty response from MCP server")`). -/
def emptyRespMsg : String := "Empty response from MCP server"

/-- Error message raised when the attempt budget is exhausted. -/
def maxAttemptsMsg : String :=
  "Failed to get matching response after " ++ toString max_attempts ++ " attempts"

/-- The read loop of `MCPServer.send_request` (`mcp_manager.py` lines 136-162):
for up to `fuel` attempts, read a line from the child's stdout; a blank line
(also the empty string returned at end of stream) raises immediately; a
response whose normalized id matches the request id is returned; any other
response is skipped with a warning.  Exhausting the attempts raises. -/
def send_request_loop (reqId : Option JsonId) : List Line → Nat → Except String RpcResponse
  | _, 0 => .error maxAttemptsMsg
  | [], _ + 1 => .error emptyRespMsg
  | .blank :: _, _ + 1 => .error emptyRespMsg
  | .json r :: rest, n + 1 =>
      if normalizeId r.id = normalizeId reqId then .ok r
      else send_request_loop reqId rest n

/-- Number of lines `send_request_loop` consumes from the child's stdout. -/
def send_request_reads (reqId : Option JsonId) : List Line → Nat → Nat
  | _, 0 => 0
  | [], _ + 1 => 0
  | .blank :: _, _ + 1 => 1
  | .json r :: rest, n + 1 =>
      if normalizeId r.id = normalizeId reqId then 1
      else 1 + send_request_reads reqId rest n

/-- Is this line a response whose normalized id differs from the request id? -/
def mismatched (reqId : Option JsonId) : Line → Bool
  | .blank => false
  | .json r => decide (normalizeId r.id ≠ normalizeId reqId)

/-! ### Python dict operations

Python dicts (access-policy maps, the Redis store, the provider registry,
JSON objects) are modelled as ordered association lists with unique keys;
`dictGet` is `d.get(k)` / `k in d`, `dictSet` is `d[k] = v` (update in place,
append when the key is new, as insertion-ordered Python dicts do). -/

def dictGet {α : Type} : List (String × α) → String → Option α
  | [], _ => none
  | e :: es, k => if e.1 = k then some e.2 else dictGet es k

def dictSet {α : Type} (l : List (String × α)) (k : String) (v : α) : List (String × α) :=
  if (dictGet l k).isSome then l.map (fun e => if e.1 = k then (k, v) else e)
  else l ++ [(k, v)]

/-- Python `str.startswith`, on the character lists of the strings. -/
def pyStartswith (s pre : String) : Bool := pre.data.isPrefixOf s.data

/-! ### Access policy engine (`main.py` `check_server_access`, lines 323-345) -/

/-- The hard-coded admin-only set consulted by `check_server_access`
(`admin_servers = {'admin', 'awp_admin', 'awp_kubernetes'}`, line 337). -/
def tools_admin_servers : List String := ["admin", "awp_admin", "awp_kubernetes"]

/-- `check_server_access(server_name, user_groups, access_policies, is_admin)`:
admins are always allowed; an explicit policy entry for the server is
consulted first (`allow` grants, anything else denies); only when no explicit
entry exists is the hard-coded admin-only set applied; the default is allow.
`user_groups` is unused in the body, exactly as in the source. -/
def check_server_access (server_name : String) (user_groups : List String)
    (access_policies : List (String × String)) (is_admin : Bool) : Bool :=
  if is_admin then true
  else
    match dictGet access_policies server_name with
    | some access => decide (access = "allow")
    | none =>
      if server_name ∈ tools_admin_servers then false
      else true

/-- The filtering step of `_list_all_tools_impl` (`main.py` lines 1131-1139):
per-server tool collections are kept exactly when `check_server_access`
returns true.  A tool collection is modelled as the list of tool names. -/
def filter_tools (all_tools : List (String × List String)) (user_groups : List String)
    (access_policies : List (String × String)) (is_admin : Bool) :
    List (String × List String) :=
  all_tools.filter (fun st => check_server_access st.1 user_groups access_policies is_admin)

/-! ### Auth pipeline (`main.py` `get_user_info`, lines 347-651) -/

/-- Identity data adopted from the platform API's `/api/auth/me` response. -/
structure UserData where
  userId : String
  email : String
  groups : List String
  isAdmin : Bool
  deriving DecidableEq, Repr

/-- The principal `get_user_info` returns (one variant per return site). -/
inductive Principal where
  /-- No Authorization header: `system-admin` with full access. -/
  | localAdmin
  /-- Bearer starting with `awc_system_`: `system-root`, SP credentials. -/
  | systemRoot
  /-- A validated `awc_` user API key. -/
  | apiKeyUser (key : String) (data : UserData)
  /-- Bearer equal to the configured Flowise internal key. -/
  | flowiseService
  /-- Bearer equal to the configured API internal key. -/
  | apiService
  /-- A principal produced by the JWT branch (HS256 or Azure AD RS256). -/
  | jwtPrincipal (data : UserData)
  deriving DecidableEq, Repr

/-- The environment `get_user_info` reads: the two configured service keys,
the platform API key-validation call (`some` on HTTP 200, `none` on any
failure), and the JWT branch (HS256/RS256 validation, abstracted as a
function returning a principal or an HTTP status code). -/
structure AuthEnv where
  flowise_api_key : String
  api_internal_key : String
  apiValidate : String → Option UserData
  jwtValidate : String → Except Nat Principal

/-- The ordered classification chain of `get_user_info`:
1. no credentials → local system admin;
2. `awc_system_` prefix → system root;
3. `awc_` prefix (non-system) → validate against the platform API; on
   success adopt the returned identity; on failure FALL THROUGH
   (`# Fall through to try other methods if validation fails`, line 421);
4. equality with the Flowise internal key → Flowise service principal;
5. equality with the API internal key → API service principal;
6. otherwise the JWT branch.
Empty-string guards mirror the `if token and ...` truthiness tests. -/
def get_user_info (credentials : Option String) (env : AuthEnv) : Except Nat Principal :=
  match credentials with
  | none => .ok .localAdmin
  | some token =>
    if token ≠ "" ∧ pyStartswith token "awc_system_" then .ok .systemRoot
    else
      let apiKeyResult : Option Principal :=
        if token ≠ "" ∧ pyStartswith token "awc_" ∧ ¬ pyStartswith token "awc_system_" then
          (env.apiValidate token).map (fun d => .apiKeyUser token d)
        else none
      match apiKeyResult with
      | some p => .ok p
      | none =>
        if token ≠ "" ∧ token = env.flowise_api_key then .ok .flowiseService
        else if token ≠ "" ∧ token = env.api_internal_key then .ok .apiService
        else env.jwtValidate token

/-! ### Audit emission (`main.py` `proxy_mcp_request`, lines 688-912, and
`/call` = `call_mcp_tool`, lines 1447-1530)

The audit behaviour of one `POST /mcp` (or `/mcp/tool`, which builds an
`MCPRequest` and delegates to the same handler) call is modelled as the list
of audit records the handler hands to `background_tasks.add_task`. -/

/-- One structured audit record (`send_mcp_log_to_api` payload, reduced to
the fields the claim quantifies over). -/
structure AuditRecord where
  server : String
  success : Bool
  deriving DecidableEq, Repr

/-- The admin-only set checked inline by `proxy_mcp_request` (line 756)
and by the `/call` handler (line 1477): `{'admin', 'awp_admin'}`. -/
def proxy_admin_servers : List String := ["admin", "awp_admin"]

/-- Inputs that decide which branch of `proxy_mcp_request` runs. -/
structure ProxyCallInput where
  /-- The target server after auto-detection; `none` is the HTTP 400 path. -/
  target : Option String
  is_admin : Bool
  /-- `user_info['user_id']`; `none` models a falsy (absent/empty) user id. -/
  user_id : Option String
  /-- Outcome of `mcp_manager.route_request` (payload abstracted). -/
  route_result : Except String String

/-- `True` iff `route_request` returned normally (the `success` flag of the
emitted audit record). -/
def routeSuccess : Except String String → Bool
  | .ok _ => true
  | .error _ => false

/-- The audit records emitted by one `proxy_mcp_request` call:
the 400 path (no server) and the 403 path (admin server, non-admin) raise
`HTTPException` before the `try` block and emit nothing; inside the `try`,
both the success return and the `except` handler emit exactly one record,
but only under `if user_id:`. -/
def proxy_mcp_audit_records (inp : ProxyCallInput) : List AuditRecord :=
  match inp.target with
  | none => []
  | some server =>
    if server ∈ proxy_admin_servers ∧ inp.is_admin = false then []
    else
      match inp.user_id with
      | none => []
      | some _ => [{ server := server, success := routeSuccess inp.route_result }]

/-- The audit records emitted by the `POST /call` handler (`call_mcp_tool`,
lines 1447-1530): the handler contains no call to `send_mcp_log_to_api` and
no `BackgroundTasks` parameter, so it emits none, on success or failure. -/
def call_endpoint_audit_records (server tool : String)
    (route_result : Except String String) : List AuditRecord := []

/-! ### OBO token selection and injection
(`main.py` `proxy_mcp_request` lines 767-802, `mcp_manager.py`
`MCPManager.route_request` lines 590-617)

The JSON-RPC request object written to the child is modelled structurally.
`Option (Option _)` distinguishes an absent key (outer `none`) from a key
present with value `None` (inner `none`), because `route_request` tests
`"arguments" not in request["params"] or request["params"]["arguments"] is None`
and the analogous condition for `meta`. -/

/-- The `meta` object inside tool-call arguments (string-valued entries). -/
structure MetaObj where
  entries : List (String × String)
  deriving DecidableEq, Repr

/-- The `arguments` object of a `tools/call`; non-`meta` keys are opaque. -/
structure Arguments where
  meta : Option (Option MetaObj)
  rest : List (String × String)
  deriving DecidableEq, Repr

/-- The `params` object of a JSON-RPC request. -/
structure RpcParams where
  name : Option String
  arguments : Option (Option Arguments)
  deriving DecidableEq, Repr

/-- The outgoing JSON-RPC request object. -/
structure RpcRequest where
  id : JsonId
  method : String
  params : Option RpcParams
  deriving DecidableEq, Repr

/-- The token-injection step of `MCPManager.route_request`: when a user token
is present (truthy) and the method is `tools/call`, create `params`,
`arguments` and `meta` when missing or `None`, then set
`params.arguments.meta.userAccessToken` to the token.  No other key is
touched; the key used is `userAccessToken`, not a leading-underscore key
(the source comments that FastMCP rejects parameters starting with `_`). -/
def inject_user_token (request : RpcRequest) (user_token : Option String) : RpcRequest :=
  match user_token with
  | none => request
  | some tok =>
    if tok ≠ "" ∧ request.method = "tools/call" then
      let p : RpcParams :=
        match request.params with
        | none => { name := none, arguments := none }
        | some p => p
      let args : Arguments :=
        match p.arguments with
        | some (some a) => a
        | _ => { meta := none, rest := [] }
      let m : MetaObj :=
        match args.meta with
        | some (some m0) => m0
        | _ => { entries := [] }
      let m1 : MetaObj := { entries := dictSet m.entries "userAccessToken" tok }
      { request with
        params := some { p with arguments := some (some { args with meta := some (some m1) }) } }
    else request

/-- Read `params.arguments.meta[k]` from a request (`none` when any level is
absent or `None`). -/
def meta_lookup (request : RpcRequest) (k : String) : Option String :=
  match request.params with
  | some p =>
    match p.arguments with
    | some (some a) =>
      match a.meta with
      | some (some m) => dictGet m.entries k
      | _ => none
    | _ => none
  | none => none

/-- The token-selection logic of `proxy_mcp_request` (lines 778-802) for a
server whose config has `supports_obo`: when auth is enabled, shared-SP mode
is off and the principal carries a usable token (truthy and not the
`SYSTEM_SP_AUTH` sentinel), the `X-Azure-ID-Token` header is preferred and
the principal's original access token is the fallback; otherwise no token is
passed.  No exchange happens here: `exchange_token_for_azure` is never
invoked on this path. -/
def select_user_token (supports_obo : Bool) (enable_auth : Bool) (use_shared_sp : Bool)
    (principal_token : Option String) (id_token_header : Option String) : Option String :=
  if supports_obo ∧ enable_auth then
    match principal_token with
    | some t =>
      if ¬ use_shared_sp ∧ t ≠ "" ∧ t ≠ "SYSTEM_SP_AUTH" then
        match id_token_header with
        | some idt => if idt ≠ "" then some idt else some t
        | none => some t
      else none
    | none => none
  else none

/-! ### Tool auto-detection (`main.py` `proxy_mcp_request`, lines 704-744) -/

/-- Provider lifecycle states (`MCPServerStatus` in `mcp_manager.py`). -/
inductive MCPStatus where
  | stopped
  | starting
  | running
  | failed
  deriving DecidableEq, Repr

/-- What the auto-detection loop observes about one registry entry, in
registry (dict insertion) order: its name, status, and the outcome of the
`tools/list` probe — `.error` when `send_request` raised (the server is
skipped), `.ok none` when the response has no `result.tools`, `.ok (some
names)` for an advertised tool list. -/
structure ServerProbe where
  name : String
  status : MCPStatus
  toolsResp : Except String (Option (List String))
  deriving Repr

/-- The auto-detection loop: iterate the registry in order, probe each
Running server with `tools/list`, and pick the first server whose advertised
tool names contain the requested tool. -/
def auto_detect_server (tool_name : String) : List ServerProbe → Option String
  | [] => none
  | s :: rest =>
    if s.status = .running then
      match s.toolsResp with
      | .ok (some names) =>
        if tool_name ∈ names then some s.name
        else auto_detect_server tool_name rest
      | _ => auto_detect_server tool_name rest
    else auto_detect_server tool_name rest

/-- The correlation id generated for each probe:
`f"auto-detect-{uuid.uuid4().hex[:8]}"` with `u` the fresh uuid fragment. -/
def auto_detect_probe_id (u : String) : String := "auto-detect-" ++ u

/-- Target-server resolution of `proxy_mcp_request`: an explicit `server`
field wins; otherwise, for `tools/call` with a truthy tool name, run
auto-detection. -/
def resolve_target (req_server : Option String) (method : String)
    (tool_name : Option String) (servers : List ServerProbe) : Option String :=
  match req_server with
  | some s => some s
  | none =>
    if method = "tools/call" then
      match tool_name with
      | some t => if t ≠ "" then auto_detect_server t servers else none
      | none => none
    else none

/-- After resolution, a missing target is rejected with HTTP 400
(`raise HTTPException(status_code=400, ...)`, line 741). -/
def proxy_target (req_server : Option String) (method : String)
    (tool_name : Option String) (servers : List ServerProbe) : Except Nat String :=
  match resolve_target req_server method tool_name servers with
  | some s => .ok s
  | none => .error 400

/-- Specification-side description of the routing choice (§4.8 of the spec):
the first Running provider whose advertised tools include the requested
name. -/
def first_running_advertiser (tool_name : String) (servers : List ServerProbe) : Option String :=
  (servers.find? (fun s =>
    decide (s.status = .running) &&
      match s.toolsResp with
      | .ok (some names) => decide (tool_name ∈ names)
      | _ => false)).map ServerProbe.name

/-! ### Provider registry state machine
(`mcp_manager.py` `MCPServer.start/stop`, `MCPManager`) -/

/-- `MCPServerConfig` (`mcp_manager.py` lines 30-37). -/
structure MCPServerConfig where
  name : String
  command : List String
  env : List (String × String)
  transport : String := "stdio"
  enabled : Bool := true
  supports_obo : Bool := false
  deriving DecidableEq, Repr

/-- One `MCPServer`: its config, whether a live child process exists
(`process is not None and process.poll() is None`), its status and last
error. Freshly constructed servers are Stopped with no child. -/
structure MCPServer where
  config : MCPServerConfig
  procAlive : Bool := false
  status : MCPStatus := .stopped
  last_error : Option String := none
  deriving DecidableEq, Repr

/-- `MCPServer.start` (lines 46-107): a no-op when already Running;
otherwise pass through Starting, spawn the child (`spawn_ok` abstracts
whether the process is still alive after the 1s grace period) and end
Running, or capture stderr and end Failed. The handshake (`initialize`,
id 0) only logs warnings and does not change the final state. -/
def MCPServer.start (spawn_ok : Bool) (s : MCPServer) : MCPServer :=
  if s.status = .running then s
  else if spawn_ok then { s with status := .running, procAlive := true }
  else { s with status := .failed, procAlive := false,
                last_error := some "Process exited immediately" }

/-- `MCPServer.stop` (lines 109-119): when a live child exists, terminate it
and mark the server Stopped; otherwise nothing changes. -/
def MCPServer.stop (s : MCPServer) : MCPServer :=
  if s.procAlive then { s with status := .stopped, procAlive := false }
  else s

/-- The registry `MCPManager.servers` and the Redis store, as ordered
dictionaries. -/
abbrev Registry : Type := List (String × MCPServer)

abbrev Store : Type := List (String × String)

/-- `REDIS_MCP_ENABLED_PREFIX + name` = `mcp:server:enabled:{name}`. -/
def enabledKey (name : String) : String := "mcp:server:enabled:" ++ name

/-- Python `str(enabled).lower()`: `"true"` or `"false"`. -/
def pyBoolStr (b : Bool) : String := if b then "true" else "false"

/-- Python `str.lower()`. -/
def pyLower (s : String) : String := String.mk (s.data.map Char.toLower)

/-- `MCPManager._save_enabled_state_to_redis`:
`redis.set(f"mcp:server:enabled:{name}", str(enabled).lower())`. -/
def save_enabled_state (store : Store) (name : String) (enabled : Bool) : Store :=
  dictSet store (enabledKey name) (pyBoolStr enabled)

/-- `MCPManager._load_enabled_states_from_redis`: for every registry entry,
a stored value overrides the build-time `config.enabled` with
`value.lower() == 'true'`; a missing key leaves the default. -/
def load_enabled_states (reg : Registry) (store : Store) : Registry :=
  reg.map (fun e => (e.1,
    match dictGet store (enabledKey e.1) with
    | some v =>
      { e.2 with config := { e.2.config with enabled := decide (pyLower v = "true") } }
    | none => e.2))

/-- `MCPManager.start_all`: start every enabled server, skip disabled ones
(`spawn` gives each spawn outcome). -/
def start_all (reg : Registry) (spawn : String → Bool) : Registry :=
  reg.map (fun e =>
    (e.1, if e.2.config.enabled then MCPServer.start (spawn e.1) e.2 else e.2))

/-- Process startup as far as the registry is concerned (`MCPManager.__init__`
followed by `start_all`): hydrate enabled flags from the store over the
build-time registry, then start all enabled servers. -/
def manager_startup (buildReg : Registry) (store : Store) (spawn : String → Bool) : Registry :=
  start_all (load_enabled_states buildReg store) spawn

/-- `MCPManager.start_server` (lines 718-725): look the server up and call
`MCPServer.start` — the enabled flag is not consulted. -/
def start_server (reg : Registry) (sid : String) (spawn_ok : Bool) :
    Registry × Except String Unit :=
  match dictGet reg sid with
  | none => (reg, .error ("Unknown server: " ++ sid))
  | some s => (dictSet reg sid (MCPServer.start spawn_ok s), .ok ())

/-- `MCPManager.set_server_enabled` (lines 836-880): update the flag,
persist it, then start when enabling a non-Running server or stop when
disabling a Running one. -/
def set_server_enabled (reg : Registry) (store : Store) (sid : String)
    (enabled : Bool) (spawn_ok : Bool) : Registry × Store × Except String Unit :=
  match dictGet reg sid with
  | none => (reg, store, .error ("Unknown server: " ++ sid))
  | some s =>
    let s1 := { s with config := { s.config with enabled := enabled } }
    let store1 := save_enabled_state store sid enabled
    let s2 :=
      if enabled ∧ s1.status ≠ .running then MCPServer.start spawn_ok s1
      else if ¬ enabled ∧ s1.status = .running then MCPServer.stop s1
      else s1
    (dictSet reg sid s2, store1, .ok ())

/-! ### Dynamic server addition (`MCPManager.add_server`, lines 635-716) -/

/-- The JSON value under `command`: a string, a list, or anything else. -/
inductive CmdVal where
  | str (s : String)
  | list (l : List String)
  | other
  deriving DecidableEq, Repr

/-- Python truthiness of the `command` value (`if not command`). -/
def CmdVal.falsy : CmdVal → Bool
  | .str s => s = ""
  | .list l => l.isEmpty
  | .other => false

/-- A flat server-configuration submission (either given directly or
extracted from the `mcpServers` container). -/
structure SubConfig where
  name : Option String := none
  command : Option CmdVal := none
  args : Option (List String) := none
  env : Option (List (String × String)) := none
  transport : Option String := none
  enabled : Option Bool := none
  supports_obo : Option Bool := none
  deriving DecidableEq, Repr

/-- The request body of `POST /servers`: a flat config, or a `mcpServers`
container whose first entry is used. -/
structure AddConfig where
  mcpServers : Option (List (String × SubConfig)) := none
  flat : SubConfig := {}
  deriving DecidableEq, Repr

/-- The normalization step of `add_server`: with a `mcpServers` container,
the first entry is extracted and `config = {"name": server_name,
**server_config}` — so a `name` inside the sub-config overrides the
container key. An empty container is an error. -/
def normalize_add_config (config : AddConfig) : Except String SubConfig :=
  match config.mcpServers with
  | some [] => .error "mcpServers object is empty"
  | some ((k, sub) :: _) => .ok { sub with name := some (sub.name.getD k) }
  | none => .ok config.flat

/-- Python truthiness of the optional `name` string (`if not name`). -/
def nameFalsy : Option String → Bool
  | none => true
  | some n => n = ""

/-- `MCPManager.add_server`: normalize, validate `name` and `command`,
reject a duplicate name BEFORE any mutation, build the command list, create
the server (Stopped), insert it, and auto-start when enabled.  The returned
registry is the registry after the call (unchanged on every error path). -/
def add_server (reg : Registry) (config : AddConfig) (spawn_ok : Bool) :
    Registry × Except String MCPServerConfig :=
  match normalize_add_config config with
  | .error e => (reg, .error e)
  | .ok flat =>
    if nameFalsy flat.name then
      (reg, .error "Server configuration must include 'name'")
    else
      match flat.name with
      | none => (reg, .error "Server configuration must include 'name'")
      | some n =>
        match flat.command with
        | none => (reg, .error "Server configuration must include 'command'")
        | some cmd =>
          if cmd.falsy then (reg, .error "Server configuration must include 'command'")
          else if (dictGet reg n).isSome then
            (reg, .error ("Server '" ++ n ++ "' already exists. Use restart or remove first."))
          else
            match cmd with
            | .other => (reg, .error "'command' must be a string or list")
            | _ =>
              let command_list : List String :=
                match cmd with
                | .str s => s :: (flat.args.getD [])
                | .list l => l
                | .other => []
              let cfg : MCPServerConfig :=
                { name := n, command := command_list, env := flat.env.getD [],
                  transport := flat.transport.getD "stdio",
                  enabled := flat.enabled.getD true,
                  supports_obo := flat.supports_obo.getD false }
              let server : MCPServer := { config := cfg }
              let reg1 := dictSet reg n server
              let reg2 :=
                if cfg.enabled then dictSet reg1 n (MCPServer.start spawn_ok server)
                else reg1
              (reg2, .ok cfg)

/-! ### Concrete fixtures used to instantiate theorems -/

/-- A provider as built at startup: enabled, Stopped, no child. -/
def alpha_build : MCPServer :=
  { config := { name := "alpha", command := ["run-alpha"], env := [] } }

/-- The same provider with a live Running child. -/
def alpha_running : MCPServer :=
  { config := { name := "alpha", command := ["run-alpha"], env := [] },
    procAlive := true, status := .running }

/-- The same provider with its enabled flag cleared, Stopped. -/
def alpha_disabled : MCPServer :=
  { config := { name := "alpha", command := ["run-alpha"], env := [], enabled := false } }

/-! ### Helper lemmas -/

theorem dictGet_append {α : Type} (l1 l2 : List (String × α)) (k : String) :
    dictGet (l1 ++ l2) k =
      (match dictGet l1 k with
       | some v => some v
       | none => dictGet l2 k) := by
  induction l1 with
  | nil => simp [dictGet]
  | cons e es ih =>
    by_cases h : e.1 = k
    · simp [dictGet, h]
    · simp [dictGet, h, ih]

theorem dictGet_update_map {α : Type} (l : List (String × α)) (k k2 : String) (v : α) :
    dictGet (l.map (fun e => if e.1 = k then (k, v) else e)) k2 =
      if k2 = k then (if (dictGet l k).isSome then some v else none)
      else dictGet l k2 := by
  induction l with
  | nil => by_cases hk : k2 = k <;> simp [dictGet, hk]
  | cons e es ih =>
    by_cases he : e.1 = k
    · by_cases hk2 : k2 = k
      · simp [dictGet, he, hk2]
      · have hne : e.1 ≠ k2 := by
          rw [he]; exact fun hh => hk2 hh.symm
        have hk2s : k ≠ k2 := fun hh => hk2 hh.symm
        simp [dictGet, he, hk2, hk2s, hne, ih]
    · by_cases hk2 : k2 = k
      · subst hk2
        have : e.1 ≠ k2 := he
        simp [dictGet, he, this, ih]
      · by_cases he2 : e.1 = k2
        · simp [dictGet, he, he2, hk2]
        · simp [dictGet, he, he2, hk2, ih]

theorem dictGet_dictSet_self {α : Type} (l : List (String × α)) (k : String) (v : α) :
    dictGet (dictSet l k v) k = some v := by
  unfold dictSet
  by_cases h : (dictGet l k).isSome
  · simp [h, dictGet_update_map]
  · rw [if_neg h, dictGet_append]
    cases hh : dictGet l k with
    | some w => rw [hh] at h; simp at h
    | none => simp [dictGet]

theorem dictGet_dictSet_ne {α : Type} (l : List (String × α)) (k k2 : String) (v : α)
    (h : k2 ≠ k) : dictGet (dictSet l k v) k2 = dictGet l k2 := by
  unfold dictSet
  by_cases hs : (dictGet l k).isSome
  · simp [hs, dictGet_update_map, h]
  · rw [if_neg hs, dictGet_append]
    have h2 : k ≠ k2 := fun hh2 => h hh2.symm
    cases hh : dictGet l k2 with
    | some w => simp
    | none => simp [dictGet, h2]

theorem dictGet_mapEntries {α : Type} (f : String → α → α) (l : List (String × α)) (k : String) :
    dictGet (l.map (fun e => (e.1, f e.1 e.2))) k = (dictGet l k).map (f k) := by
  induction l with
  | nil => simp [dictGet]
  | cons e es ih =>
    by_cases h : e.1 = k
    · simp [dictGet, h]
    · simp [dictGet, h, ih]

theorem dictGet_load_enabled_states (reg : Registry) (store : Store) (p : String) :
    dictGet (load_enabled_states reg store) p =
      (dictGet reg p).map (fun s =>
        match dictGet store (enabledKey p) with
        | some v =>
          { s with config := { s.config with enabled := decide (pyLower v = "true") } }
        | none => s) := by
  have h := dictGet_mapEntries (α := MCPServer)
    (fun n s =>
      match dictGet store (enabledKey n) with
      | some v =>
        { s with config := { s.config with enabled := decide (pyLower v = "true") } }
      | none => s) reg p
  simpa [load_enabled_states] using h

theorem dictGet_start_all (reg : Registry) (spawn : String → Bool) (p : String) :
    dictGet (start_all reg spawn) p =
      (dictGet reg p).map (fun s =>
        if s.config.enabled then MCPServer.start (spawn p) s else s) := by
  have h := dictGet_mapEntries (α := MCPServer)
    (fun n s => if s.config.enabled then MCPServer.start (spawn n) s else s) reg p
  simpa [start_all] using h

theorem auto_detect_eq_first_advertiser (t : String) :
    ∀ servers : List ServerProbe,
      auto_detect_server t servers = first_running_advertiser t servers := by
  intro servers
  induction servers with
  | nil => rfl
  | cons s rest ih =>
    by_cases hst : s.status = .running
    · cases hresp : s.toolsResp with
      | error e =>
        simp [auto_detect_server, first_running_advertiser, List.find?, hst, hresp]
        exact ih
      | ok names? =>
        cases names? with
        | none =>
          simp [auto_detect_server, first_running_advertiser, List.find?, hst, hresp]
          exact ih
        | some names =>
          by_cases hmem : t ∈ names
          · simp [auto_detect_server, first_running_advertiser, List.find?, hst, hresp, hmem]
          · simp [auto_detect_server, first_running_advertiser, List.find?, hst, hresp, hmem]
            exact ih
    · simp [auto_detect_server, first_running_advertiser, List.find?, hst]
      exact ih

theorem send_request_loop_ok_id (reqId : Option JsonId) :
    ∀ (lines : List Line) (fuel : Nat) (r : RpcResponse),
      send_request_loop reqId lines fuel = .ok r →
      normalizeId r.id = normalizeId reqId := by
  intro lines
  induction lines with
  | nil => intro fuel r h; cases fuel <;> simp [send_request_loop] at h
  | cons l rest ih =>
    intro fuel r h
    cases fuel with
    | zero => simp [send_request_loop] at h
    | succ n =>
      cases l with
      | blank => simp [send_request_loop] at h
      | json r0 =>
        by_cases hid : normalizeId r0.id = normalizeId reqId
        · simp [send_request_loop, hid] at h
          subst h; exact hid
        · simp [send_request_loop, hid] at h
          exact ih n r h

theorem send_request_reads_le_fuel (reqId : Option JsonId) :
    ∀ (lines : List Line) (fuel : Nat),
      send_request_reads reqId lines fuel ≤ fuel := by
  intro lines
  induction lines with
  | nil => intro fuel; cases fuel <;> simp [send_request_reads]
  | cons l rest ih =>
    intro fuel
    cases fuel with
    | zero => simp [send_request_reads]
    | succ n =>
      cases l with
      | blank => simp [send_request_reads]
      | json r0 =>
        by_cases hid : normalizeId r0.id = normalizeId reqId
        · simp [send_request_reads, hid]
        · simp [send_request_reads, hid]
          have := ih n
          omega

theorem send_request_loop_all_mismatch (reqId : Option JsonId) :
    ∀ (fuel : Nat) (lines : List Line),
      fuel ≤ lines.length →
      (∀ l ∈ lines.take fuel, mismatched reqId l = true) →
      send_request_loop reqId lines fuel = .error maxAttemptsMsg := by
  intro fuel
  induction fuel with
  | zero => intro lines _ _; cases lines <;> simp [send_request_loop]
  | succ n ih =>
    intro lines hlen hall
    cases lines with
    | nil => simp at hlen
    | cons l rest =>
      cases l with
      | blank =>
        have := hall .blank (by simp)
        simp [mismatched] at this
      | json r0 =>
        have hmis := hall (.json r0) (by simp)
        simp [mismatched] at hmis
        simp [send_request_loop, hmis]
        exact ih rest (by simpa using hlen)
          (fun l hl => hall l (by simp [hl]))

/-! ### Claim C1 -/

/-- Claim C1, counterexample: in `check_server_access` the explicit per-group
policy map is consulted BEFORE the hard-coded admin-only set, so an explicit
`allow` entry for `awp_admin` grants a non-admin principal access to the
admin-only provider — the aggregated-catalog access decision is Allow, not
Deny as the claim states. -/
theorem check_server_access_explicit_allow_beats_admin_only :
    check_server_access "awp_admin" [] [("awp_admin", "allow")] false = true ∧
    filter_tools [("awp_admin", ["restart_service"])] [] [("awp_admin", "allow")] false
      = [("awp_admin", ["restart_service"])] := by
  constructor <;> rfl

/-- Claim C1, amended: for a non-admin principal, a provider in the
hard-coded admin-only set is denied — and its tool collection is dropped
from the aggregated catalog — only when the fetched policy map has NO
explicit entry for that provider; an explicit `allow` entry is checked
first and overrides the admin-only rule. -/
theorem check_server_access_admin_only_denied (server_name : String)
    (user_groups : List String) (access_policies : List (String × String))
    (all_tools : List (String × List String))
    (hpol : dictGet access_policies server_name = none)
    (hadm : server_name ∈ tools_admin_servers) :
    check_server_access server_name user_groups access_policies false = false ∧
    server_name ∉
      (filter_tools all_tools user_groups access_policies false).map Prod.fst := by
  have hacc : check_server_access server_name user_groups access_policies false = false := by
    simp [check_server_access, hpol, hadm]
  refine ⟨hacc, ?_⟩
  intro hmem
  rcases List.mem_map.mp hmem with ⟨e, he, hfst⟩
  have hchk := (List.mem_filter.mp he).2
  rw [hfst, hacc] at hchk
  exact Bool.noConfusion hchk

/-- Witness for the amended C1 theorem at a concrete non-admin principal. -/
theorem check_server_access_admin_only_denied_witness :
    check_server_access "awp_kubernetes" ["grp-1"] [("awp_web", "allow")] false = false ∧
    "awp_kubernetes" ∉
      (filter_tools [("awp_kubernetes", ["kubectl_get"]), ("awp_web", ["fetch_page"])]
        ["grp-1"] [("awp_web", "allow")] false).map Prod.fst :=
  check_server_access_admin_only_denied "awp_kubernetes" ["grp-1"] [("awp_web", "allow")]
    [("awp_kubernetes", ["kubectl_get"]), ("awp_web", ["fetch_page"])]
    (by rfl) (by decide)

/-! ### Claim C2 -/

/-- Claim C2, counterexample: a bearer token with the `awc_` (non-system)
prefix whose platform-API validation fails does NOT end in 401 — the
handler falls through to the service-key comparisons, and a token equal to
the configured Flowise internal key is classified as the (admin) Flowise
service principal. -/
theorem awc_key_failure_falls_through_counterexample :
    get_user_info (some "awc_badkey")
      { flowise_api_key := "awc_badkey", api_internal_key := "",
        apiValidate := fun _ => none, jwtValidate := fun _ => .error 401 }
      = .ok .flowiseService := by
  rfl

/-- Claim C2, amended: when validation of a non-system `awc_` key against
the platform API fails, the handler falls through to the service-key
comparisons and then to JWT validation; the request is rejected (typically
401 from the JWT branch) only when the token also differs from both
configured service keys, and a failing key equal to a configured service
key is classified as that service principal instead. -/
theorem awc_key_failure_falls_through (token : String) (env : AuthEnv)
    (h1 : pyStartswith token "awc_" = true)
    (h2 : pyStartswith token "awc_system_" = false)
    (h3 : env.apiValidate token = none)
    (h4 : token ≠ env.flowise_api_key)
    (h5 : token ≠ env.api_internal_key) :
    get_user_info (some token) env = env.jwtValidate token := by
  have htok : token ≠ "" := by
    intro h
    subst h
    simp [pyStartswith] at h1
  unfold get_user_info
  simp [htok, h1, h2, h3, h4, h5]

/-- Witness for the amended C2 theorem: with no matching service key and a
JWT branch that rejects, the failing `awc_` key yields 401. -/
theorem awc_key_failure_falls_through_witness :
    get_user_info (some "awc_xk")
      { flowise_api_key := "flowise-internal", api_internal_key := "",
        apiValidate := fun _ => none, jwtValidate := fun _ => .error 401 }
      = .error 401 :=
  awc_key_failure_falls_through "awc_xk"
    { flowise_api_key := "flowise-internal", api_internal_key := "",
      apiValidate := fun _ => none, jwtValidate := fun _ => .error 401 }
    (by decide) (by decide) rfl (by decide) (by decide)

/-! ### Claim C3 -/

/-- Claim C3, counterexample: not every tool call emits exactly one audit
record. A non-admin call to the admin-only server `awp_admin` through
`POST /mcp` is rejected with 403 BEFORE the `try` block and emits zero
audit records; and the `POST /call` handler contains no audit emission at
all, also on success. -/
theorem denied_or_direct_call_emits_no_audit :
    proxy_mcp_audit_records
      { target := some "awp_admin", is_admin := false, user_id := some "user-1",
        route_result := .ok "unused" } = [] ∧
    call_endpoint_audit_records "awp_web" "fetch_page" (.ok "result") = [] := by
  constructor <;> rfl

/-- Claim C3, amended: on `POST /mcp` (and `/mcp/tool`, which delegates to
the same handler), exactly one audit record — success or failure matching
the routing outcome — is emitted for a call that has a resolved target,
passes the inline admin gate, and carries a truthy user id; calls rejected
before routing (400 no-server, 403 admin gate), calls with a falsy user id,
and everything on `POST /call` emit no audit record. -/
theorem proxy_audit_exactly_one (inp : ProxyCallInput) (server uid : String)
    (ht : inp.target = some server)
    (hadm : ¬ (server ∈ proxy_admin_servers ∧ inp.is_admin = false))
    (hu : inp.user_id = some uid) :
    proxy_mcp_audit_records inp =
      [{ server := server, success := routeSuccess inp.route_result }] := by
  unfold proxy_mcp_audit_records
  rw [ht, hu]
  simp [hadm]

/-- Witness for the amended C3 theorem: a failed routed call emits exactly
one failure record. -/
theorem proxy_audit_exactly_one_witness :
    proxy_mcp_audit_records
      { target := some "awp_web", is_admin := false, user_id := some "u1",
        route_result := .error "boom" } =
      [{ server := "awp_web", success := false }] :=
  proxy_audit_exactly_one
    { target := some "awp_web", is_admin := false, user_id := some "u1",
      route_result := .error "boom" }
    "awp_web" "u1" rfl (by decide) rfl

/-! ### Claim C4 -/

/-- Claim C4, counterexample: the proxy performs no on-behalf-of exchange on
the routing path — `select_user_token` picks the caller's own assertion
(`X-Azure-ID-Token` header, else the caller's original access token), and
`route_request` writes exactly that caller-supplied token to
`params.arguments.meta.userAccessToken`; the claim's "exchanged ... token
(not the caller's original token)" is false. -/
theorem injected_token_is_callers_original :
    select_user_token true true false (some "caller-access-token") none
      = some "caller-access-token" ∧
    meta_lookup
      (inject_user_token
        { id := .str "7", method := "tools/call", params := none }
        (some "caller-access-token")) "userAccessToken"
      = some "caller-access-token" := by
  constructor <;> rfl

/-- Claim C4, amended: for a `tools/call` routed with a usable assertion
token, the object written to the child carries THE CALLER'S assertion token
(the `X-Azure-ID-Token` header when present, else the original access
token; the OBO exchange is left to the provider) at
`params.arguments.meta.userAccessToken`; missing or `None` `params`,
`arguments` and `meta` are created, and the only meta key added is
`userAccessToken`, which does not begin with an underscore. -/
theorem inject_user_token_spec (request : RpcRequest) (tok : String)
    (hm : request.method = "tools/call") (htok : tok ≠ "") :
    meta_lookup (inject_user_token request (some tok)) "userAccessToken" = some tok ∧
    (∀ k v, meta_lookup (inject_user_token request (some tok)) k = some v →
      (k = "userAccessToken" ∧ v = tok ∧ pyStartswith k "_" = false) ∨
        meta_lookup request k = some v) ∧
    (∀ orig idt : String, orig ≠ "" → orig ≠ "SYSTEM_SP_AUTH" → idt ≠ "" →
      select_user_token true true false (some orig) (some idt) = some idt ∧
      select_user_token true true false (some orig) none = some orig) := by
  obtain ⟨rid, rmethod, rparams⟩ := request
  subst hm
  refine ⟨?_, ?_, ?_⟩
  · simp only [inject_user_token]
    rw [if_pos ⟨htok, trivial⟩]
    simp only [meta_lookup]
    exact dictGet_dictSet_self _ _ _
  · intro k v hkv
    by_cases hk : k = "userAccessToken"
    · subst hk
      simp only [inject_user_token] at hkv
      rw [if_pos ⟨htok, trivial⟩] at hkv
      simp only [meta_lookup] at hkv
      rw [dictGet_dictSet_self] at hkv
      exact Or.inl ⟨rfl, (Option.some.inj hkv).symm, by decide⟩
    · right
      simp only [inject_user_token] at hkv
      rw [if_pos ⟨htok, trivial⟩] at hkv
      simp only [meta_lookup] at hkv
      rw [dictGet_dictSet_ne _ _ _ _ hk] at hkv
      cases rparams with
      | none => simp [dictGet] at hkv
      | some p =>
        cases hargs : p.arguments with
        | none => rw [hargs] at hkv; simp [dictGet] at hkv
        | some args? =>
          cases args? with
          | none => rw [hargs] at hkv; simp [dictGet] at hkv
          | some args =>
            rw [hargs] at hkv
            cases hmeta : args.meta with
            | none => rw [hmeta] at hkv; simp [dictGet] at hkv
            | some m? =>
              cases m? with
              | none => rw [hmeta] at hkv; simp [dictGet] at hkv
              | some m =>
                rw [hmeta] at hkv
                simp only [meta_lookup, hargs, hmeta]
                exact hkv
  · intro orig idt h1 h2 h3
    constructor
    · simp [select_user_token, h1, h2, h3]
    · simp [select_user_token, h1, h2]

/-- Witness for the amended C4 theorem at a concrete request whose
`arguments` key is present but `None`. -/
theorem inject_user_token_spec_witness :
    meta_lookup
      (inject_user_token
        { id := .num 5, method := "tools/call",
          params := some { name := some "list_resources", arguments := some none } }
        (some "id-token-abc")) "userAccessToken" = some "id-token-abc" :=
  (inject_user_token_spec
    { id := .num 5, method := "tools/call",
      params := some { name := some "list_resources", arguments := some none } }
    "id-token-abc" rfl (by decide)).1

/-! ### Claim C5 -/

/-- Claim C5: for a `POST /mcp` `tools/call` with no `server` field and a
truthy tool name, the handler iterates the providers in registry order,
probes the Running ones with `tools/list`, and routes to the first whose
advertised tool names include the requested tool; when no Running provider
advertises it, the request fails with HTTP 400.  Each probe's correlation
id is `auto-detect-` plus a fresh uuid fragment, so distinct fragments give
distinct ids. -/
theorem auto_detect_routes_first_or_400 (t : String) (servers : List ServerProbe)
    (ht : t ≠ "") :
    (proxy_target none "tools/call" (some t) servers =
      match first_running_advertiser t servers with
      | some n => .ok n
      | none => .error 400) ∧
    (∀ u1 u2 : String, u1 ≠ u2 → auto_detect_probe_id u1 ≠ auto_detect_probe_id u2) := by
  constructor
  · unfold proxy_target resolve_target
    simp [ht, auto_detect_eq_first_advertiser]
  · intro u1 u2 hne heq
    apply hne
    have hd := congrArg String.data heq
    simp only [auto_detect_probe_id, String.data_append] at hd
    have hdd := List.append_cancel_left hd
    cases u1
    cases u2
    exact congrArg String.mk hdd

/-- Witness for C5 at scenario A of the spec: providers `alpha`
(tools `sum`, `diff`) and `beta` (tool `upper`) are Running; the call for
`upper` routes to `beta`. -/
theorem auto_detect_routes_first_or_400_witness :
    proxy_target none "tools/call" (some "upper")
      [{ name := "alpha", status := .running, toolsResp := .ok (some ["sum", "diff"]) },
       { name := "beta", status := .running, toolsResp := .ok (some ["upper"]) }]
      = .ok "beta" := by
  have h := (auto_detect_routes_first_or_400 "upper"
    [{ name := "alpha", status := .running, toolsResp := .ok (some ["sum", "diff"]) },
     { name := "beta", status := .running, toolsResp := .ok (some ["upper"]) }]
    (by decide)).1
  exact h.trans (by rfl)

/-! ### Claim C6 -/

/-- Claim C6: every response object `MCPServer.send_request` returns to its
caller has an id equal to the request's correlation id after normalizing
both to strings; a response whose normalized id differs is skipped, never
returned. -/
theorem send_request_response_id_matches (reqId : Option JsonId) (lines : List Line)
    (r : RpcResponse)
    (h : send_request_loop reqId lines max_attempts = .ok r) :
    normalizeId r.id = normalizeId reqId :=
  send_request_loop_ok_id reqId lines max_attempts r h

/-- Witness for C6: a response with string id `"1"` is delivered for a
request with integer id `1` (normalization makes them equal). -/
theorem send_request_response_id_matches_witness :
    normalizeId (RpcResponse.mk (some (.str "1")) "pong").id
      = normalizeId (some (.num 1)) :=
  send_request_response_id_matches (some (.num 1))
    [.json (RpcResponse.mk (some (.str "1")) "pong")]
    (RpcResponse.mk (some (.str "1")) "pong") (by rfl)

/-! ### Claim C10 -/

/-- Claim C10: the read loop of `MCPServer.send_request` is bounded — it
consumes at most 10 lines from the child's stdout, raises immediately on an
empty/whitespace-only line, and raises after 10 consecutive responses whose
ids do not match the request id. -/
theorem send_request_read_bounded (reqId : Option JsonId) (lines : List Line) :
    send_request_reads reqId lines max_attempts ≤ max_attempts ∧
    send_request_loop reqId (Line.blank :: lines) max_attempts = .error emptyRespMsg ∧
    (max_attempts ≤ lines.length →
      (∀ l ∈ lines.take max_attempts, mismatched reqId l = true) →
      send_request_loop reqId lines max_attempts = .error maxAttemptsMsg) :=
  ⟨send_request_reads_le_fuel reqId lines max_attempts,
   rfl,
   fun h1 h2 => send_request_loop_all_mismatch reqId max_attempts lines h1 h2⟩

/-- Witness for C10: ten consecutive stale responses exhaust the attempt
budget and raise. -/
theorem send_request_read_bounded_witness :
    send_request_loop (some (.num 2))
      (List.replicate 10 (Line.json (RpcResponse.mk (some (.str "stale")) "old")))
      max_attempts = .error maxAttemptsMsg :=
  (send_request_read_bounded (some (.num 2))
    (List.replicate 10 (Line.json (RpcResponse.mk (some (.str "stale")) "old")))).2.2
    (by decide) (by decide)

/-! ### Claim C7 -/

/-- Claim C7: `set_server_enabled(p, false)` stores the literal string
`"false"` under `mcp:server:enabled:p`, stops `p`'s child when it is
running, and after a restart that reloads flags from the store, the stored
flag overrides the build-time default so `p` is not started — it is Stopped
at startup. -/
theorem set_enabled_false_persists (reg : Registry) (store : Store) (buildReg : Registry)
    (p : String) (s s0 : MCPServer) (spawn1 : Bool) (spawn2 : String → Bool)
    (hreg : dictGet reg p = some s)
    (hbuild : dictGet buildReg p = some s0)
    (hstopped : s0.status = .stopped) :
    dictGet (set_server_enabled reg store p false spawn1).2.1 (enabledKey p)
      = some "false" ∧
    (s.status = .running → s.procAlive = true →
      ∃ s2, dictGet (set_server_enabled reg store p false spawn1).1 p = some s2 ∧
        s2.status = .stopped ∧ s2.procAlive = false) ∧
    (∃ s3,
      dictGet
        (manager_startup buildReg (set_server_enabled reg store p false spawn1).2.1 spawn2) p
        = some s3 ∧ s3.status = .stopped ∧ s3.config.enabled = false) := by
  have hstore :
      (set_server_enabled reg store p false spawn1).2.1
        = dictSet store (enabledKey p) "false" := by
    simp [set_server_enabled, hreg, save_enabled_state, pyBoolStr]
  refine ⟨?_, ?_, ?_⟩
  · rw [hstore]
    exact dictGet_dictSet_self _ _ _
  · intro hrun halive
    have hreg1 :
        (set_server_enabled reg store p false spawn1).1
          = dictSet reg p
              (MCPServer.stop
                { s with config := { s.config with enabled := false } }) := by
      simp [set_server_enabled, hreg, hrun]
    refine ⟨MCPServer.stop { s with config := { s.config with enabled := false } },
      ?_, ?_, ?_⟩
    · rw [hreg1]
      exact dictGet_dictSet_self _ _ _
    · simp [MCPServer.stop, halive]
    · simp [MCPServer.stop, halive]
  · rw [hstore]
    have hflag : dictGet (dictSet store (enabledKey p) "false") (enabledKey p)
        = some "false" := dictGet_dictSet_self _ _ _
    unfold manager_startup
    rw [dictGet_start_all, dictGet_load_enabled_states, hbuild, hflag]
    have hdec : decide (pyLower "false" = "true") = false := by decide
    refine ⟨{ s0 with config := { s0.config with enabled := false } }, ?_, ?_, ?_⟩
    · simp [hdec]
    · simpa using hstopped
    · simp

/-- Witness for C7: disabling a Running `alpha` persists `"false"`, stops
the child, and after restart from the same store `alpha` stays Stopped. -/
theorem set_enabled_false_persists_witness :
    dictGet (set_server_enabled [("alpha", alpha_running)] [] "alpha" false true).2.1
      (enabledKey "alpha") = some "false" ∧
    (∃ s2,
      dictGet (set_server_enabled [("alpha", alpha_running)] [] "alpha" false true).1 "alpha"
        = some s2 ∧ s2.status = .stopped ∧ s2.procAlive = false) ∧
    (∃ s3,
      dictGet
        (manager_startup [("alpha", alpha_build)]
          (set_server_enabled [("alpha", alpha_running)] [] "alpha" false true).2.1
          (fun _ => true)) "alpha"
        = some s3 ∧ s3.status = .stopped ∧ s3.config.enabled = false) := by
  have h := set_enabled_false_persists [("alpha", alpha_running)] [] [("alpha", alpha_build)]
    "alpha" alpha_running alpha_build true (fun _ => true) rfl rfl rfl
  exact ⟨h.1, h.2.1 rfl rfl, h.2.2⟩

/-! ### Claim C8 -/

/-- Claim C8, counterexample: `MCPManager.start_server` (the handler behind
`POST /servers/{id}/start`) never consults the enabled flag, so starting a
disabled provider is NOT a no-op — the disabled provider ends up Running,
violating the claimed invariant. -/
theorem start_endpoint_starts_disabled_server :
    (dictGet (start_server [("alpha", alpha_disabled)] "alpha" true).1 "alpha").map
      MCPServer.status = some .running ∧
    alpha_disabled.config.enabled = false := by
  constructor <;> rfl

/-- Claim C8, amended: a provider whose enabled flag is false is skipped by
`start_all` — its state (and hence `status ∉ {Starting, Running}`) is
preserved at startup — but the invariant is not preserved by every
operation: the explicit start endpoint starts a disabled provider. -/
theorem start_all_skips_disabled (reg : Registry) (spawn : String → Bool) (p : String)
    (s : MCPServer) (hget : dictGet reg p = some s)
    (hdis : s.config.enabled = false) :
    dictGet (start_all reg spawn) p = some s := by
  rw [dictGet_start_all, hget]
  simp [hdis]

/-- Witness for the amended C8 theorem: `start_all` leaves the disabled
`alpha` untouched. -/
theorem start_all_skips_disabled_witness :
    dictGet (start_all [("alpha", alpha_disabled)] (fun _ => true)) "alpha"
      = some alpha_disabled :=
  start_all_skips_disabled [("alpha", alpha_disabled)] (fun _ => true) "alpha"
    alpha_disabled rfl rfl

/-! ### Claim C9 -/

/-- Claim C9: a dynamic `add_server` whose (possibly container-normalized)
name collides with an existing provider fails with an error, and the
registry — the existing provider's configuration, status and child — is
unchanged: the duplicate check precedes every mutation. -/
theorem add_server_duplicate_rejected (reg : Registry) (config : AddConfig)
    (flat : SubConfig) (n : String) (spawn_ok : Bool)
    (hn : normalize_add_config config = .ok flat)
    (hname : flat.name = some n)
    (hdup : (dictGet reg n).isSome = true) :
    (add_server reg config spawn_ok).1 = reg ∧
    ∃ e, (add_server reg config spawn_ok).2 = .error e := by
  simp only [add_server, hn]
  by_cases hf : nameFalsy flat.name = true
  · rw [if_pos hf]
    exact ⟨rfl, _, rfl⟩
  · rw [if_neg hf]
    simp only [hname]
    cases hcmd : flat.command with
    | none => exact ⟨rfl, _, rfl⟩
    | some cmd =>
      by_cases hcf : cmd.falsy = true
      · refine ⟨by simp [hcf], ?_⟩
        exact ⟨"Server configuration must include 'command'", by simp [hcf]⟩
      · refine ⟨by simp [hcf, hdup], ?_⟩
        exact ⟨"Server '" ++ n ++ "' already exists. Use restart or remove first.",
          by simp [hcf, hdup]⟩

/-- Witness for C9: re-adding `alpha` over an existing `alpha` is rejected
with the duplicate error and the registry is exactly the old one. -/
theorem add_server_duplicate_rejected_witness :
    (add_server [("alpha", alpha_build)]
      { flat := { name := some "alpha", command := some (.str "npx"),
                  args := some ["-y", "sample-mcp"] } } true).1
      = [("alpha", alpha_build)] ∧
    (add_server [("alpha", alpha_build)]
      { flat := { name := some "alpha", command := some (.str "npx"),
                  args := some ["-y", "sample-mcp"] } } true).2
      = .error "Server 'alpha' already exists. Use restart or remove first." := by
  have h := add_server_duplicate_rejected [("alpha", alpha_build)]
    { flat := { name := some "alpha", command := some (.str "npx"),
                args := some ["-y", "sample-mcp"] } }
    { name := some "alpha", command := some (.str "npx"),
      args := some ["-y", "sample-mcp"] }
    "alpha" true rfl rfl (by rfl)
  exact ⟨h.1, by rfl⟩

end McpProxy
